import Mathlib

/-! # The Telegram storage driver (`drivers/telegram`)

A shallow embedding of `helper.go` and `driver.go`.

The driver talks to three collaborators that are not part of the package: the
Telegram client (peer resolution, dialog and message queries, file download),
the expiring key-value cache, and the Go standard library.  The client is a
record of result tables (`Upstream`); every request the driver sends is written
to a call log, so that statements about which requests are made, and in which
order, can be stated.  Go panics (index out of range, nil dereference) are a
separate outcome, distinct from a returned error.
-/

set_option autoImplicit false

/-- Go slices are modelled as lists. -/
abbrev Slice (α : Type) : Type := List α

/-- Byte strings (`[]byte`), one natural number per byte. -/
abbrev Bytes : Type := List Nat

/-! ## Errors and outcomes -/

/-- Error values that the driver returns or passes through. -/
inductive Error where
  /-- An error produced by the Telegram client or another collaborator. -/
  | upstream (msg : String)
  /-- The value of `fmt.Errorf("failed to get result from %d：%v", id, err)`. -/
  | failedToGetResult (id : Int) (last : Error)
  /-- The error of `time.Parse` on the given value. -/
  | timeParse (value : String)
  /-- The constant `errs.ObjectNotFound`. -/
  | ObjectNotFound
  /-- The constant `errs.NotImplement`. -/
  | NotImplement
  deriving DecidableEq, Repr

/-- How a Go call ends: a value with a nil error, a non-nil error, or a
run-time panic.  `outOfFuel` is the only outcome that is not Go behaviour: the
loop bound given to the model was too small. -/
inductive Outcome (α : Type) where
  | ok (a : α)
  | err (e : Error)
  | panic (msg : String)
  | outOfFuel
  deriving DecidableEq, Repr

deriving instance DecidableEq for Except

/-! ## `strconv` -/

/-- Value of a decimal digit character, `none` for any other character. -/
def digitVal (c : Char) : Option Nat :=
  if '0' ≤ c ∧ c ≤ '9' then some (c.toNat - '0'.toNat) else none

/-- Reads a sequence of decimal digits, most significant first; `acc` is the
value read so far.  Fails on a character that is not a digit. -/
def parseDigits : List Char → Nat → Option Nat
  | [], acc => some acc
  | c :: cs, acc =>
    match digitVal c with
    | none => none
    | some v => parseDigits cs (acc * 10 + v)

/-- The result of `strconv.ParseInt`: the returned value and whether the
returned error is nil. -/
structure ParseResult where
  val : Int
  ok : Bool
  deriving DecidableEq, Repr

/-- The result of `strconv.ParseUint`: a value with a nil error, a syntax
error (value 0), or a range error (value `2^64 - 1`). -/
inductive UintResult where
  | ok (n : Nat)
  | syntaxError
  | rangeError
  deriving DecidableEq, Repr

/-- The digit loop of `strconv.ParseUint(s, 10, 64)`, with the value `n` read
so far.  Each character is checked in turn: a character that is not a digit is
a syntax error, and a digit with which the value leaves the 64-bit range is a
range error, returned at that digit, before any later character is read. -/
def parseUintLoop : List Char → Nat → UintResult
  | [], n => .ok n
  | c :: cs, n =>
    match digitVal c with
    | none => .syntaxError
    | some d =>
      if n ≥ (2 ^ 64 - 1) / 10 + 1 then .rangeError
      else if n * 10 + d > 2 ^ 64 - 1 then .rangeError
      else parseUintLoop cs (n * 10 + d)

/-- Model of `strconv.ParseUint(s, 10, 64)`. -/
def ParseUint (s : List Char) : UintResult :=
  match s with
  | [] => .syntaxError
  | _ :: _ => parseUintLoop s 0

/-- The range check of `ParseInt` on the unsigned value `un`, against the
cutoff `2^63`. -/
def signedRange (neg : Bool) (un : Nat) : ParseResult :=
  if !neg && un ≥ 2 ^ 63 then ⟨2 ^ 63 - 1, false⟩
  else if neg && un > 2 ^ 63 then ⟨-(2 ^ 63), false⟩
  else ⟨if neg then -(un : Int) else (un : Int), true⟩

/-- Model of `strconv.ParseInt(s, 10, 64)`.  A syntax error returns 0, a range
error returns the nearest bound, both with a non-nil error. -/
def ParseInt (s : String) : ParseResult :=
  match s.data with
  | [] => ⟨0, false⟩
  | c :: rest =>
    -- Pick off leading sign.
    let neg : Bool := c = '-'
    let digits := if c = '+' ∨ c = '-' then rest else c :: rest
    -- Convert unsigned and check range.
    match ParseUint digits with
    | .syntaxError => ⟨0, false⟩
    | .rangeError => signedRange neg (2 ^ 64 - 1)
    | .ok un => signedRange neg un

/-- Model of `strconv.Atoi` on a 64-bit platform.  Its fast path, for fewer
than 19 characters, reads a sign and digits and returns 0 on any other
character; longer input goes to `ParseInt(s, 10, 0)`.  Fewer than 19 characters
cannot leave the 64-bit range, so both paths give the value and error of
`ParseInt(s, 10, 64)`. -/
def Atoi (s : String) : ParseResult := ParseInt s

/-- Model of `strconv.FormatInt(i, 10)` and `strconv.Itoa`. -/
def FormatInt (i : Int) : String :=
  if i < 0 then "-" ++ Nat.repr i.natAbs else Nat.repr i.natAbs

/-- Wrap-around of a 64-bit signed integer. -/
def wrap64 (i : Int) : Int := (i + 2 ^ 63) % 2 ^ 64 - 2 ^ 63

/-! ## Peers and the call log -/

/-- The three id spaces of Telegram peers. -/
inductive PeerKind where
  | user | chat | channel
  deriving DecidableEq, Repr

/-- A resolved peer (`peers.Peer`). -/
structure Peer where
  kind : PeerKind
  id : Int
  deriving DecidableEq, Repr

/-- A file location (`tg.InputFileLocationClass`), with the thumbnail size
selector that the driver sets. -/
inductive Location where
  | document (id : Int) (thumbSize : String)
  | photo (id : Int) (thumbSize : String)
  deriving DecidableEq, Repr

/-- Requests that the driver sends to the Telegram client. -/
inductive Call where
  | Resolve (name : String)
  | ResolveChannelID (id : Int)
  | ResolveUserID (id : Int)
  | ResolveChatID (id : Int)
  | GetDialogs
  | SearchDocuments (peer : Peer) (minDate maxDate : Int)
  | SearchOffset (peer : Peer) (offsetID : Int)
  | UploadGetFile (loc : Location)
  | Download (loc : Location)
  deriving DecidableEq, Repr

/-- The part of the Telegram client used for peer resolution
(`peers.Manager`). -/
structure Manager where
  Resolve : String → Except Error Peer
  ResolveChannelID : Int → Except Error Peer
  ResolveUserID : Int → Except Error Peer
  ResolveChatID : Int → Except Error Peer

/-- A result together with the requests that were sent to obtain it. -/
structure Logged (α : Type) where
  result : α
  calls : List Call

/-- Model of `helper.GetInputPeer` (helper.go, lines 18-42). -/
def GetInputPeer (manager : Manager) (src : String) : Logged (Except Error Peer) :=
  let parsed := ParseInt src
  if !parsed.ok then
    -- from is username
    match manager.Resolve src with
    | .error err => ⟨.error err, [Call.Resolve src]⟩
    | .ok p => ⟨.ok p, [Call.Resolve src]⟩
  else
    let id := parsed.val
    match manager.ResolveChannelID id with
    | .ok p => ⟨.ok p, [Call.ResolveChannelID id]⟩
    | .error _ =>
      match manager.ResolveUserID id with
      | .ok p => ⟨.ok p, [Call.ResolveChannelID id, Call.ResolveUserID id]⟩
      | .error _ =>
        match manager.ResolveChatID id with
        | .ok p =>
          ⟨.ok p, [Call.ResolveChannelID id, Call.ResolveUserID id, Call.ResolveChatID id]⟩
        | .error err =>
          ⟨.error (Error.failedToGetResult id err),
            [Call.ResolveChannelID id, Call.ResolveUserID id, Call.ResolveChatID id]⟩

/-! ## `time` -/

/-- An instant (`time.Time`), as seconds and nanoseconds since the Unix epoch.
All calendar computations of the driver are in UTC. -/
structure Time where
  sec : Int
  nsec : Int
  deriving DecidableEq, Repr

/-- Number of days from 1970-01-01 to the given civil date (proleptic
Gregorian calendar); the month is in 1..12, the day may be any integer. -/
def daysFromCivil (year month day : Int) : Int :=
  let y := if month ≤ 2 then year - 1 else year
  let era := y / 400
  let yoe := y - era * 400
  let mp := (month + 9) % 12
  let doy := (153 * mp + 2) / 5 + day - 1
  let doe := yoe * 365 + yoe / 4 - yoe / 100 + doy
  era * 146097 + doe - 719468

/-- Civil date (year, month, day) of a day number counted from 1970-01-01. -/
def civilFromDays (days : Int) : Int × Int × Int :=
  let z := days + 719468
  let era := z / 146097
  let doe := z - era * 146097
  let yoe := (doe - doe / 1460 + doe / 36524 - doe / 146096) / 365
  let doy := doe - (365 * yoe + yoe / 4 - yoe / 100)
  let mp := (5 * doy + 2) / 153
  let d := doy - (153 * mp + 2) / 5 + 1
  let m := if mp < 10 then mp + 3 else mp - 9
  (if m ≤ 2 then yoe + era * 400 + 1 else yoe + era * 400, m, d)

/-- Model of `time.Date(year, month, day, hour, min, sec, nsec, time.UTC)`:
values outside their usual ranges are normalised by carrying over. -/
def Time.Date (year month day hour min sec nsec : Int) : Time :=
  let m := month - 1
  let year := year + m / 12
  let month := m % 12 + 1
  let sec := sec + nsec / 1000000000
  let nsec := nsec % 1000000000
  ⟨daysFromCivil year month day * 86400 + hour * 3600 + min * 60 + sec, nsec⟩

/-- Model of `time.Unix(sec, 0)`. -/
def Time.Unix (sec : Int) : Time := ⟨sec, 0⟩

/-- Model of `t.Unix()`. -/
def Time.toUnix (t : Time) : Int := t.sec

/-- Model of `t.Before(u)`. -/
def Time.Before (t u : Time) : Bool :=
  t.sec < u.sec || (t.sec == u.sec && t.nsec < u.nsec)

/-- Model of `t.AddDate(years, months, days)` for a UTC time. -/
def Time.AddDate (t : Time) (years months days : Int) : Time :=
  let (year, month, day) := civilFromDays (t.sec / 86400)
  let rem := t.sec % 86400
  Time.Date (year + years) (month + months) (day + days)
    (rem / 3600) (rem % 3600 / 60) (rem % 60) t.nsec

/-- Decimal representation of a natural number, padded with zeros on the left
to at least `width` digits. -/
def zeroPad (width n : Nat) : String :=
  let digits := Nat.repr n
  String.mk (List.replicate (width - digits.length) '0') ++ digits

/-- Model of `t.Format("2006-01")` for a UTC time: four-digit year, a dash,
two-digit month. -/
def Time.Format (t : Time) : String :=
  let (year, month, _) := civilFromDays (t.sec / 86400)
  (if year < 0 then "-" else "") ++ zeroPad 4 year.natAbs ++ "-" ++ zeroPad 2 month.natAbs

/-- Model of `time.Parse("2006-01", value)`: exactly four digits, a dash, and
two digits that give a month in 1..12; the result is the first instant of that
month in UTC. -/
def Time.Parse (value : String) : Except Error Time :=
  match value.data with
  | [y1, y2, y3, y4, '-', m1, m2] =>
    match parseDigits [y1, y2, y3, y4] 0, parseDigits [m1, m2] 0 with
    | some year, some month =>
      if month = 0 ∨ 12 < month then .error (Error.timeParse value)
      else .ok (Time.Date year month 1 0 0 0 0)
    | _, _ => .error (Error.timeParse value)
  | _ => .error (Error.timeParse value)

/-! ## `strings` -/

/-- Splits a character sequence at every occurrence of `sep`; the result has
one more element than there are separators. -/
def splitChars (sep : Char) : List Char → List (List Char)
  | [] => [[]]
  | c :: cs =>
    if c = sep then [] :: splitChars sep cs
    else
      match splitChars sep cs with
      | [] => [[c]]
      | seg :: segs => (c :: seg) :: segs

/-- Model of `strings.Split(s, sep)` for a separator of one character. -/
def Split (s : String) (sep : Char) : Slice String :=
  (splitChars sep s.data).map String.mk

/-! ## `path` -/

/-- The element stack of `path.Clean`: empty elements and `.` are dropped, and
`..` removes the element before it; a `..` that has nothing to remove is
dropped in a rooted path and kept otherwise.  The stack is in reverse
order. -/
def cleanElems (rooted : Bool) : List (List Char) → List (List Char) → List (List Char)
  | [], stack => stack
  | elem :: rest, stack =>
    if elem = [] ∨ elem = ['.'] then cleanElems rooted rest stack
    else if elem = ['.', '.'] then
      match stack with
      | top :: below =>
        if top = ['.', '.'] then cleanElems rooted rest (elem :: stack)
        else cleanElems rooted rest below
      | [] => if rooted then cleanElems rooted rest [] else cleanElems rooted rest [elem]
    else cleanElems rooted rest (elem :: stack)

/-- Model of `path.Clean`: the shortest path equivalent to the given one; the
empty result of an unrooted path is `.`. -/
def Clean (path : String) : String :=
  let rooted : Bool := path.data.head? = some '/'
  let elems := (cleanElems rooted (splitChars '/' path.data) []).reverse
  let body := String.intercalate "/" (elems.map String.mk)
  if rooted then "/" ++ body else if body = "" then "." else body

/-- Model of `path.Join`: the non-empty elements joined with slashes and
cleaned; the empty string when all elements are empty. -/
def Join (elem : List String) : String :=
  match elem.filter (fun e => e ≠ "") with
  | [] => ""
  | parts => Clean (String.intercalate "/" parts)

/-! ## Objects, links and the cache -/

/-- A listed object (`model.ObjThumb`): the fields of `model.Object` that the
driver sets, and the thumbnail URL. -/
structure Obj where
  ID : String
  Name : String
  IsFolder : Bool
  Modified : Time
  Size : Int
  Thumbnail : String
  deriving DecidableEq, Repr

/-- The body of a link (`link.Data`).  A pipe is the read end of an `io.Pipe`
whose write end is held by a goroutine that `Link` starts; the goroutine runs
after `Link` has returned and is described here by what it was given. -/
inductive Body where
  /-- A reader over bytes that are already in memory. -/
  | bytes (data : Bytes)
  /-- Fed by one `UploadGetFile` of `location`; the first `thumbnailSize` bytes
  are then added to the cache under `cacheKey`. -/
  | thumbPipe (location : Location) (thumbnailSize : Int) (cacheKey : String)
  /-- Fed by a download of the file at `location`. -/
  | filePipe (location : Location)
  deriving DecidableEq, Repr

/-- A link (`model.Link`): header fields in the order they were added, and the
body. -/
structure Link where
  Header : List (String × String)
  Data : Body
  deriving DecidableEq, Repr

/-- What the cache stores: a listing (`*[]model.Obj`) or raw bytes
(`[]byte`). -/
inductive CacheValue where
  | listing (files : Slice Obj)
  | bytes (data : Bytes)
  deriving DecidableEq, Repr

/-- A cache item: the stored value and its expiry instant in nanoseconds; an
expiry that is not positive means the item never expires. -/
structure Item where
  Object : CacheValue
  Expiration : Int
  deriving DecidableEq, Repr

/-- Modelled from the spec: the expiring key-value store (section 4.3,
ExpiringCache), which is the third-party package `go-cache` and not part of the
driver.  The store is an association list; the first entry for a key counts. -/
abbrev Cache : Type := List (String × Item)

/-- Modelled from the spec: the standing default time to live of five minutes
(`cache.New(5*time.Minute, 10*time.Minute)` in `Init`), in nanoseconds. -/
def defaultExpiration : Int := 5 * 60 * 1000000000

/-- One hour in nanoseconds (`time.Hour`). -/
def hour : Int := 60 * 60 * 1000000000

/-- Modelled from the spec: `get(key) -> (value, found)` at clock reading
`now`.  An item whose expiry instant has passed is not found. -/
def Cache.Get (c : Cache) (now : Int) (k : String) : Option CacheValue :=
  match c.lookup k with
  | none => none
  | some item =>
    if item.Expiration > 0 ∧ now > item.Expiration then none else some item.Object

/-- Modelled from the spec: `set(key, value, ttl)` at clock reading `now`; the
entry for the key is replaced wholesale. -/
def Cache.Set (c : Cache) (now : Int) (k : String) (x : CacheValue) (d : Int) : Cache :=
  (k, ⟨x, if d > 0 then now + d else 0⟩) :: c.filter (fun e => e.1 != k)

/-! ## Telegram data -/

/-- A photo size (`tg.PhotoSizeClass`); the variants the driver does not
inspect are `other`. -/
inductive PhotoSizeClass where
  | PhotoSize (type : String) (size : Int)
  | PhotoSizeProgressive (type : String) (sizes : Slice Int)
  | other
  deriving DecidableEq, Repr

/-- A document (`tg.Document`); `Thumbs` is `none` when `GetThumbs` reports
that the field is not set. -/
structure Document where
  ID : Int
  Size : Int
  Thumbs : Option (Slice PhotoSizeClass)
  deriving DecidableEq, Repr

/-- A photo (`tg.Photo`). -/
structure Photo where
  ID : Int
  Sizes : Slice PhotoSizeClass
  deriving DecidableEq, Repr

/-- An attached file (`messages.File`). -/
structure File where
  Name : String
  MIMEType : String
  Location : Location
  deriving DecidableEq, Repr

/-- The dynamic type of a message (`tg.MessageClass`), with the text that the
driver reads from it. -/
inductive MessageClass where
  | Message (message : String)
  | MessageService (string : String)
  | MessageEmpty
  deriving DecidableEq, Repr

/-- A message as the query iterator yields it (`messages.Elem`): its id and
date, its dynamic type, and the results of `Document()`, `Photo()` and
`File()`. -/
structure Elem where
  ID : Int
  Date : Int
  Msg : MessageClass
  Document : Option Document
  Photo : Option Photo
  File : Option File
  deriving DecidableEq, Repr

/-- A message iterator that has run to its end: the messages for which `Next`
returned true, in order, and the error (`Err()`) that stopped it, if any. -/
structure Iterator where
  items : Slice Elem
  err : Option Error
  deriving DecidableEq, Repr

/-- A user (`tg.User`). -/
structure User where
  FirstName : String
  LastName : String
  Username : String
  deriving DecidableEq, Repr

/-- A basic group (`tg.Chat`). -/
structure Chat where
  Title : String
  deriving DecidableEq, Repr

/-- A channel or supergroup (`tg.Channel`). -/
structure Channel where
  Title : String
  Megagroup : Bool
  Gigagroup : Bool
  deriving DecidableEq, Repr

/-- The entities that come with a dialog (`peer.Entities`), as three maps
keyed by id. -/
structure Entities where
  Users : Int → Option User
  Chats : Int → Option Chat
  Channels : Int → Option Channel

/-- The peer of a dialog (`tg.InputPeerClass`); variants without an id are
`other`. -/
inductive InputPeerClass where
  | InputPeerUser (UserID : Int)
  | InputPeerChat (ChatID : Int)
  | InputPeerChannel (ChannelID : Int)
  | other
  deriving DecidableEq, Repr

/-- A dialog as the dialog query yields it (`dialogs.Elem`).  `Last` is the
date of the last message (`dialog.Last.GetDate()`), and `none` when the
interface value `dialog.Last` is nil, as for a dialog whose last message did
not come with the answer. -/
structure Dialog where
  Peer : InputPeerClass
  Entities : Entities
  Last : Option Int

/-- The Telegram client as the driver sees it: for every request, the
answer. -/
structure Upstream where
  manager : Manager
  /-- `query.GetDialogs(api).BatchSize(100).Collect(ctx)`. -/
  GetDialogs : Except Error (Slice Dialog)
  /-- Document search in a peer between two dates, batch size 100. -/
  SearchDocuments : Peer → Int → Int → Iterator
  /-- Message search in a peer from an offset id, batch size 1. -/
  SearchOffset : Peer → Int → Iterator

/-- Functions of the surrounding application that build the thumbnail URL. -/
structure Env where
  /-- `common.GetApiUrl(nil)`. -/
  ApiUrl : String
  /-- `utils.EncodePath`. -/
  EncodePath : String → Bool → String
  /-- `sign.Sign`. -/
  Sign : String → String

/-! ## helper.go -/

/-- Model of `helper.GetInputPeerID` (helper.go, lines 56-67). -/
def GetInputPeerID (peer : InputPeerClass) : Int :=
  match peer with
  | .InputPeerUser UserID => UserID
  | .InputPeerChat ChatID => ChatID
  | .InputPeerChannel ChannelID => ChannelID
  | .other => 0

/-- Model of `helper.GetName` (helper.go, lines 82-87). -/
def GetName (first last username : String) : String :=
  let name := first ++ " " ++ last
  if name ≠ " " then name else username

/-- Model of `helper.GetPeerName` (helper.go, lines 89-103). -/
def GetPeerName (id : Int) (e : Entities) : String :=
  match e.Users id with
  | some n => GetName n.FirstName n.LastName n.Username
  | none =>
    match e.Channels id with
    | some n => n.Title
    | none =>
      match e.Chats id with
      | some n => n.Title
      | none => ""

/-- Model of `helper.GetPeerType` (helper.go, lines 131-148). -/
def GetPeerType (id : Int) (e : Entities) : String :=
  match e.Users id with
  | some _ => "ChatPrivate"
  | none =>
    match e.Channels id with
    | some n => if n.Megagroup || n.Gigagroup then "ChatGroup" else "ChatChannel"
    | none =>
      match e.Chats id with
      | some _ => "ChatGroup"
      | none => "ChatUnknown"

/-! ## driver.go -/

/-- The mutable part of the driver (`Telegram`): the stored session string of
`Addition` and the cache. -/
structure Telegram where
  Session : String
  cache : Cache
  deriving DecidableEq, Repr

/-- The end of a driver call: its outcome, the driver afterwards, and the
requests sent to the Telegram client, in order. -/
structure Run (α : Type) where
  result : Outcome α
  state : Telegram
  calls : List Call

/-- The arguments of `List` that the driver reads (`model.ListArgs`). -/
structure ListArgs where
  ReqPath : String
  deriving DecidableEq, Repr

/-- The arguments of `Link` that the driver reads (`model.LinkArgs`). -/
structure LinkArgs where
  /-- The field `Type`. -/
  Type_ : String
  deriving DecidableEq, Repr

/-- The folder node of one dialog (driver.go, lines 160-171).  The call
`dialog.Last.GetDate()` on a nil `dialog.Last` panics. -/
def dialogFolder (dialog : Dialog) : Outcome Obj :=
  let peer := dialog.Entities
  let id := GetInputPeerID dialog.Peer
  let name := GetPeerName id peer ++ " " ++ GetPeerType id peer
  match dialog.Last with
  | none => .panic "invalid memory address or nil pointer dereference"
  | some date =>
    .ok
      { ID := FormatInt id, Name := name, IsFolder := true,
        Modified := Time.Unix date, Size := 0, Thumbnail := "" }

/-- The loop over the dialogs (driver.go, lines 159-173), started with the
nodes collected so far. -/
def dialogFolders : Slice Dialog → Slice Obj → Outcome (Slice Obj)
  | [], files => .ok files
  | dialog :: rest, files =>
    match dialogFolder dialog with
    | .ok file => dialogFolders rest (files ++ [file])
    | .err e => .err e
    | .panic msg => .panic msg
    | .outOfFuel => .outOfFuel

/-- The loop over the months of the fixed window (driver.go, lines 196-208),
started at `date` with the nodes collected so far.  `none` when the bound on
the number of iterations is reached before the loop condition fails. -/
def periodFolders (peerId : String) (endDate : Time) :
    Nat → Time → Slice Obj → Option (Slice Obj)
  | 0, _, _ => none
  | fuel + 1, date, files =>
    if date.Before endDate then
      -- Format the date as a string in the "YYYY-MM" format.
      let dateString := date.Format
      let file : Obj :=
        { ID := peerId ++ ":" ++ dateString, Name := dateString, IsFolder := true,
          Modified := date, Size := 0, Thumbnail := "" }
      periodFolders peerId endDate fuel (date.AddDate 0 1 0) (files ++ [file])
    else some files

/-- The loop over the sizes of a photo (driver.go, lines 239-245): every
progressive size sets `size` to the last of its byte counts, and indexing an
empty list of byte counts panics. -/
def progressiveSize : Slice PhotoSizeClass → Int → Outcome Int
  | [], size => .ok size
  | .PhotoSizeProgressive _ sizes :: rest, _ =>
    match sizes.getLast? with
    | none => .panic "index out of range [-1]"
    | some last => progressiveSize rest last
  | _ :: rest, size => progressiveSize rest size

/-- The body of the message loop (driver.go, lines 223-267): the node that one
message adds to the listing, if any.  The text read from the message by the
type switch is replaced by the file name before it is used, so it does not
appear here. -/
def messageFile (env : Env) (args : ListArgs) (peerId dateString : String)
    (message : Elem) : Outcome (Option Obj) :=
  let size : Outcome Int :=
    match message.Document with
    | some doc => .ok doc.Size
    | none =>
      match message.Photo with
      | some photo => progressiveSize photo.Sizes 0
      | none => .ok 0
  match size with
  | .ok size =>
    match message.File with
    | some mediaFile =>
      let text := mediaFile.Name
      let thumb := env.ApiUrl ++ Join ["/p", args.ReqPath, text]
      let thumb := env.EncodePath thumb true
      let thumb := thumb ++ "?type=thumb&sign=" ++ env.Sign (Join [args.ReqPath, text])
      .ok (some
        { ID := peerId ++ ":" ++ dateString ++ ":" ++ FormatInt message.ID,
          Name := text, IsFolder := false, Modified := Time.Unix message.Date,
          Size := size, Thumbnail := thumb })
    | none => .ok none
  | .err e => .err e
  | .panic msg => .panic msg
  | .outOfFuel => .outOfFuel

/-- The message loop `for iterator.Next(ctx)` (driver.go, lines 222-268) over
the messages the iterator yields, started with the nodes collected so far. -/
def messageFiles (env : Env) (args : ListArgs) (peerId dateString : String) :
    Slice Elem → Slice Obj → Outcome (Slice Obj)
  | [], files => .ok files
  | message :: rest, files =>
    match messageFile env args peerId dateString message with
    | .ok (some file) => messageFiles env args peerId dateString rest (files ++ [file])
    | .ok none => messageFiles env args peerId dateString rest files
    | .err e => .err e
    | .panic msg => .panic msg
    | .outOfFuel => .outOfFuel

/-- The result of `*files` after `files, _ := result.(*[]model.Obj)`: a cached
value of another type leaves `files` nil, and dereferencing it panics. -/
def cachedListing (result : CacheValue) : Outcome (Slice Obj) :=
  match result with
  | .listing files => .ok files
  | .bytes _ => .panic "invalid memory address or nil pointer dereference"

/-- Model of `Telegram.List` (driver.go, lines 141-276).  `now` is the clock
reading when the cache is read, `later` the clock reading when the listing is
stored, and `fuel` bounds the iterations of the month loop. -/
def Telegram.List (up : Upstream) (env : Env) (fuel : Nat) (now later : Int)
    (d : Telegram) (dir : Obj) (args : ListArgs) : Run (Slice Obj) :=
  let dirId := dir.ID
  -- list for root
  if dirId = "" then
    match d.cache.Get now "root" with
    | some result => ⟨cachedListing result, d, []⟩
    | none =>
      match up.GetDialogs with
      | .error err => ⟨.err err, d, [Call.GetDialogs]⟩
      | .ok dialogs =>
        match dialogFolders dialogs [] with
        | .ok files =>
          -- cache root result
          ⟨.ok files,
            { d with cache := d.cache.Set later "root" (.listing files) defaultExpiration },
            [Call.GetDialogs]⟩
        | .err e => ⟨.err e, d, [Call.GetDialogs]⟩
        | .panic msg => ⟨.panic msg, d, [Call.GetDialogs]⟩
        | .outOfFuel => ⟨.outOfFuel, d, [Call.GetDialogs]⟩
  else
    -- list for chat
    match d.cache.Get now dirId with
    | some result => ⟨cachedListing result, d, []⟩
    | none =>
      let ids := Split dirId ':'
      let peerId := ids.headD ""
      let resolved := GetInputPeer up.manager peerId
      match resolved.result with
      | .error err => ⟨.err err, d, resolved.calls⟩
      | .ok peer =>
        if ids.length = 1 then
          let startDate := Time.Date 2022 10 1 0 0 0 0
          let endDate := Time.Date 2023 1 1 0 0 0 1
          -- Use a loop to iterate over the months between the start and end dates.
          match periodFolders peerId endDate fuel startDate [] with
          | none => ⟨.outOfFuel, d, resolved.calls⟩
          | some files =>
            ⟨.ok files,
              { d with cache := d.cache.Set later dirId (.listing files) defaultExpiration },
              resolved.calls⟩
        else if ids.length = 2 then
          let dateString := ids.getD 1 ""
          match Time.Parse dateString with
          | .error err => ⟨.err err, d, resolved.calls⟩
          | .ok t =>
            let dateStart := t.toUnix
            let dateEnd := (t.AddDate 0 1 0).toUnix
            let iterator := up.SearchDocuments peer dateStart dateEnd
            let calls := resolved.calls ++ [Call.SearchDocuments peer dateStart dateEnd]
            match messageFiles env args peerId dateString iterator.items [] with
            | .ok files =>
              ⟨.ok files,
                { d with cache := d.cache.Set later dirId (.listing files) defaultExpiration },
                calls⟩
            | .err e => ⟨.err e, d, calls⟩
            | .panic msg => ⟨.panic msg, d, calls⟩
            | .outOfFuel => ⟨.outOfFuel, d, calls⟩
        else ⟨.ok [], d, resolved.calls⟩

/-- The loop over the thumbnails of a document (driver.go, lines 312-317):
the last `PhotoSize` entry sets the thumbnail size and type. -/
def documentThumb : Slice PhotoSizeClass → Int × String → Int × String
  | [], acc => acc
  | .PhotoSize type size :: rest, _ => documentThumb rest (size, type)
  | _ :: rest, acc => documentThumb rest acc

/-- Model of `photo.MapSizes().AsPhotoSize().First()`: the first `PhotoSize`
entry of the sizes. -/
def firstPhotoSize : Slice PhotoSizeClass → Option (Int × String)
  | [] => none
  | .PhotoSize type size :: _ => some (size, type)
  | _ :: rest => firstPhotoSize rest

/-- The choice of the thumbnail of a located message (driver.go, lines
306-335): thumbnail size, thumbnail type, and the file location if the message
has a document or a photo. -/
def thumbnailOf (message : Elem) : Int × String × Option Location :=
  let start : Int × String × Option Location := (0, "", none)
  let afterDocument : Int × String × Option Location :=
    match message.Document with
    | some document =>
      let chosen : Int × String :=
        match document.Thumbs with
        | some photos => documentThumb photos (start.1, start.2.1)
        | none => (start.1, start.2.1)
      (chosen.1, chosen.2, some (Location.document document.ID chosen.2))
    | none => start
  match message.Photo with
  | some photo =>
    let chosen : Int × String :=
      match firstPhotoSize photo.Sizes with
      | some size => size
      | none => (afterDocument.1, afterDocument.2.1)
    (chosen.1, chosen.2, some (Location.photo photo.ID chosen.2))
  | none => afterDocument

/-- The thumbnail branch of `Link` after peer resolution (driver.go, lines
287-363), given the third segment of the key. -/
def thumbLink (up : Upstream) (now : Int) (d : Telegram) (peer : Peer)
    (calls : List Call) (id2 : String) : Run Link :=
  match d.cache.Get now ("thumbnail:" ++ id2) with
  | some result =>
    let data : Bytes :=
      match result with
      | .bytes data => data
      | .listing _ => []
    ⟨.ok
      { Header :=
          [("Content-Length", FormatInt data.length),
           ("Content-Type", "image/jpeg"),
           ("Content-Disposition", "filename=\"" ++ id2 ++ ".jpg\"")],
        Data := Body.bytes data },
      d, calls⟩
  | none =>
    let messageId := (Atoi id2).val
    let offset := wrap64 (messageId + 1)
    let iterator := up.SearchOffset peer offset
    let calls := calls ++ [Call.SearchOffset peer offset]
    match iterator.items with
    | message :: _ =>
      let (thumbnailSize, thumbnailType, location) := thumbnailOf message
      match location with
      | some location =>
        if thumbnailType ≠ "" then
          ⟨.ok
            { Header :=
                [("Content-Length", FormatInt thumbnailSize),
                 ("Content-Type", "image/jpeg"),
                 ("Content-Disposition", "filename=\"" ++ id2 ++ ".jpg\"")],
              Data := Body.thumbPipe location thumbnailSize ("thumbnail:" ++ id2) },
            d, calls⟩
        else ⟨.err Error.ObjectNotFound, d, calls⟩
      | none => ⟨.err Error.ObjectNotFound, d, calls⟩
    | [] => ⟨.err Error.ObjectNotFound, d, calls⟩

/-- Model of `Telegram.Link` (driver.go, lines 278-401); `now` is the clock
reading when the cache is read. -/
def Telegram.Link (up : Upstream) (now : Int) (d : Telegram) (file : Obj)
    (args : LinkArgs) : Run Link :=
  let ids := Split file.ID ':'
  if args.Type_ = "thumb" then
    let resolved := GetInputPeer up.manager (ids.headD "")
    match resolved.result with
    | .error err => ⟨.err err, d, resolved.calls⟩
    | .ok peer =>
      match ids.get? 2 with
      | none =>
        ⟨.panic ("index out of range [2] with length " ++ Nat.repr ids.length), d,
          resolved.calls⟩
      | some id2 => thumbLink up now d peer resolved.calls id2
  else if ids.length = 3 then
    let resolved := GetInputPeer up.manager (ids.headD "")
    match resolved.result with
    | .error err => ⟨.err err, d, resolved.calls⟩
    | .ok peer =>
      let messageId := (Atoi (ids.getD 2 "")).val
      let offset := wrap64 (messageId + 1)
      let iterator := up.SearchOffset peer offset
      let calls := resolved.calls ++ [Call.SearchOffset peer offset]
      match iterator.items with
      | message :: _ =>
        match message.File with
        | some file =>
          ⟨.ok
            { Header :=
                [("Content-Type", file.MIMEType),
                 ("Content-Disposition", "filename=\"" ++ file.Name ++ "\"")],
              Data := Body.filePipe file.Location },
            d, calls⟩
        | none => ⟨.err Error.ObjectNotFound, d, calls⟩
      | [] => ⟨.err Error.ObjectNotFound, d, calls⟩
  else ⟨.err Error.NotImplement, d, []⟩

/-- Model of `Telegram.MakeDir` (driver.go, lines 403-406): the returned error
and the driver afterwards. -/
def Telegram.MakeDir (d : Telegram) (_parentDir : Obj) (_dirName : String) :
    Error × Telegram :=
  (Error.NotImplement, d)

/-- Model of `Telegram.Move` (driver.go, lines 408-411). -/
def Telegram.Move (d : Telegram) (_srcObj _dstDir : Obj) : Error × Telegram :=
  (Error.NotImplement, d)

/-- Model of `Telegram.Rename` (driver.go, lines 413-416). -/
def Telegram.Rename (d : Telegram) (_srcObj : Obj) (_newName : String) :
    Error × Telegram :=
  (Error.NotImplement, d)

/-- Model of `Telegram.Copy` (driver.go, lines 418-421). -/
def Telegram.Copy (d : Telegram) (_srcObj _dstDir : Obj) : Error × Telegram :=
  (Error.NotImplement, d)

/-- Model of `Telegram.Remove` (driver.go, lines 423-426). -/
def Telegram.Remove (d : Telegram) (_obj : Obj) : Error × Telegram :=
  (Error.NotImplement, d)

/-- The upload stream handed to `Put` (`model.FileStreamer`): its name and its
content. -/
structure FileStreamer where
  Name : String
  Content : Bytes
  deriving DecidableEq, Repr

/-- Model of `Telegram.Put` (driver.go, lines 428-431); the progress callback
is never called and is left out. -/
def Telegram.Put (d : Telegram) (_dstDir : Obj) (_stream : FileStreamer) :
    Error × Telegram :=
  (Error.NotImplement, d)

/-! ## Concrete collaborators used in the examples -/

/-- A resolver that knows no peer. -/
def noPeer (what : String) : Int → Except Error Peer :=
  fun _ => .error (Error.upstream what)

/-- A manager in which the id 42 resolves only as a chat id. -/
def chatOnlyManager : Manager where
  Resolve := fun _ => .error (Error.upstream "no such username")
  ResolveChannelID := noPeer "no such channel"
  ResolveUserID := noPeer "no such user"
  ResolveChatID := fun id =>
    if id = 42 then .ok ⟨PeerKind.chat, 42⟩ else .error (Error.upstream "no such chat")

/-- A manager in which the id 100 is a channel and nothing else resolves. -/
def demoManager : Manager where
  Resolve := fun _ => .error (Error.upstream "no such username")
  ResolveChannelID := fun id =>
    if id = 100 then .ok ⟨PeerKind.channel, 100⟩ else .error (Error.upstream "no such channel")
  ResolveUserID := noPeer "no such user"
  ResolveChatID := noPeer "no such chat"

/-- The channel with id 100. -/
def demoPeer : Peer := ⟨PeerKind.channel, 100⟩

/-- A private dialog with the user 1, first name Alice, no last name. -/
def aliceDialog : Dialog where
  Peer := .InputPeerUser 1
  Entities :=
    { Users := fun id => if id = 1 then some ⟨"Alice", "", "alice"⟩ else none
      Chats := fun _ => none
      Channels := fun _ => none }
  Last := some 1667260800

/-- A dialog with the channel 2, titled News, neither megagroup nor
gigagroup. -/
def newsDialog : Dialog where
  Peer := .InputPeerChannel 2
  Entities :=
    { Users := fun _ => none
      Chats := fun _ => none
      Channels := fun id => if id = 2 then some ⟨"News", false, false⟩ else none }
  Last := some 1667260900

/-- A message with id 3 that carries the document `old.pdf`. -/
def oldMessage : Elem where
  ID := 3
  Date := 1667300000
  Msg := .Message ""
  Document := some ⟨30, 2048, none⟩
  Photo := none
  File := some ⟨"old.pdf", "application/pdf", Location.document 30 ""⟩

/-- The history of the channel 100, newest first: the one message with id 3. -/
def demoHistory : Slice Elem := [oldMessage]

/-- A search from an offset id over a history that is ordered newest first:
the messages with an id below the offset, so that the first one is the newest
message with an id of at most offset minus one. -/
def searchHistory (history : Slice Elem) (offsetID : Int) : Iterator :=
  ⟨history.filter (fun m => m.ID < offsetID), none⟩

/-- A client with the dialogs of Alice and News, in which the channel 100 has
the history `demoHistory`, and in which the document search yields the message
3 and then stops with an error. -/
def demoUpstream : Upstream where
  manager := demoManager
  GetDialogs := .ok [aliceDialog, newsDialog]
  SearchDocuments := fun _ _ _ => ⟨[oldMessage], some (Error.upstream "connection lost")⟩
  SearchOffset := fun _ offsetID => searchHistory demoHistory offsetID

/-- Application functions for the examples: an encoding that changes nothing,
as is the case for paths without a character to escape, and a fixed
signature. -/
def demoEnv : Env where
  ApiUrl := "http://host"
  EncodePath := fun path _ => path
  Sign := fun _ => "sig"

/-- An object that has the given ID and is otherwise empty. -/
def objWithID (id : String) : Obj :=
  { ID := id, Name := "", IsFolder := false, Modified := ⟨0, 0⟩, Size := 0, Thumbnail := "" }

/-- A driver with an empty cache. -/
def freshDriver : Telegram := ⟨"", []⟩

/-- A driver whose cache holds three bytes under `thumbnail:5`, for ever. -/
def thumbDriver : Telegram := ⟨"", [("thumbnail:5", ⟨.bytes [255, 216, 255], 0⟩)]⟩

/-- A client that answers every request with an error, except that the id 42
resolves as a chat. -/
def chatOnlyUpstream : Upstream where
  manager := chatOnlyManager
  GetDialogs := .error (Error.upstream "offline")
  SearchDocuments := fun _ _ _ => ⟨[], some (Error.upstream "offline")⟩
  SearchOffset := fun _ _ => ⟨[], some (Error.upstream "offline")⟩

/-- A dialog with the channel 2, titled News, whose entities also hold a user
with the id 2. -/
def clashDialog : Dialog where
  Peer := .InputPeerChannel 2
  Entities :=
    { Users := fun id => if id = 2 then some ⟨"Bob", "Stone", "bob"⟩ else none
      Chats := fun _ => none
      Channels := fun id => if id = 2 then some ⟨"News", false, false⟩ else none }
  Last := some 1667260900

/-- A dialog with the chat 7 whose last message is missing. -/
def silentDialog : Dialog where
  Peer := .InputPeerChat 7
  Entities :=
    { Users := fun _ => none
      Chats := fun id => if id = 7 then some ⟨"Quiet"⟩ else none
      Channels := fun _ => none }
  Last := none

/-- The client `demoUpstream` with another answer to the dialog query. -/
def withDialogs (dialogs : Slice Dialog) : Upstream :=
  { demoUpstream with GetDialogs := .ok dialogs }

/-! # Theorems -/

/-! ## Peer resolution -/

/-- C1: for a token that parses as a base-10 64-bit integer id, `GetInputPeer`
asks the channel, user and chat resolvers in this order, returns the peer of
the first that succeeds without asking a later one, and fails exactly when all
three fail, with an error that carries the id and the error of the chat
resolver. -/
theorem GetInputPeer_numeric_fallback (manager : Manager) (src : String)
    (hparse : (ParseInt src).ok = true) :
    (∀ p, manager.ResolveChannelID (ParseInt src).val = .ok p →
      (GetInputPeer manager src).result = .ok p ∧
      (GetInputPeer manager src).calls = [Call.ResolveChannelID (ParseInt src).val]) ∧
    (∀ e p, manager.ResolveChannelID (ParseInt src).val = .error e →
      manager.ResolveUserID (ParseInt src).val = .ok p →
      (GetInputPeer manager src).result = .ok p ∧
      (GetInputPeer manager src).calls =
        [Call.ResolveChannelID (ParseInt src).val, Call.ResolveUserID (ParseInt src).val]) ∧
    (∀ e e2 p, manager.ResolveChannelID (ParseInt src).val = .error e →
      manager.ResolveUserID (ParseInt src).val = .error e2 →
      manager.ResolveChatID (ParseInt src).val = .ok p →
      (GetInputPeer manager src).result = .ok p ∧
      (GetInputPeer manager src).calls =
        [Call.ResolveChannelID (ParseInt src).val, Call.ResolveUserID (ParseInt src).val,
          Call.ResolveChatID (ParseInt src).val]) ∧
    (∀ e e2 e3, manager.ResolveChannelID (ParseInt src).val = .error e →
      manager.ResolveUserID (ParseInt src).val = .error e2 →
      manager.ResolveChatID (ParseInt src).val = .error e3 →
      (GetInputPeer manager src).result =
        .error (Error.failedToGetResult (ParseInt src).val e3) ∧
      (GetInputPeer manager src).calls =
        [Call.ResolveChannelID (ParseInt src).val, Call.ResolveUserID (ParseInt src).val,
          Call.ResolveChatID (ParseInt src).val]) ∧
    ((∃ err, (GetInputPeer manager src).result = .error err) ↔
      (∃ e, manager.ResolveChannelID (ParseInt src).val = .error e) ∧
      (∃ e, manager.ResolveUserID (ParseInt src).val = .error e) ∧
      (∃ e, manager.ResolveChatID (ParseInt src).val = .error e)) := by
  refine ⟨?_, ?_, ?_, ?_, ?_⟩
  · intro p h1
    simp [GetInputPeer, hparse, h1]
  · intro e p h1 h2
    simp [GetInputPeer, hparse, h1, h2]
  · intro e e2 p h1 h2 h3
    simp [GetInputPeer, hparse, h1, h2, h3]
  · intro e e2 e3 h1 h2 h3
    simp [GetInputPeer, hparse, h1, h2, h3]
  · cases h1 : manager.ResolveChannelID (ParseInt src).val with
    | ok p => simp [GetInputPeer, hparse, h1]
    | error e =>
      cases h2 : manager.ResolveUserID (ParseInt src).val with
      | ok p => simp [GetInputPeer, hparse, h1, h2]
      | error e2 =>
        cases h3 : manager.ResolveChatID (ParseInt src).val with
        | ok p => simp [GetInputPeer, hparse, h1, h2, h3]
        | error e3 => simp [GetInputPeer, hparse, h1, h2, h3]

/-- C1 at a concrete input: the id 42, known only to the chat resolver, is
resolved on the third attempt. -/
theorem GetInputPeer_numeric_fallback_witness :
    (ParseInt "42").ok = true ∧
    (GetInputPeer chatOnlyManager "42").result = .ok ⟨PeerKind.chat, 42⟩ ∧
    (GetInputPeer chatOnlyManager "42").calls =
      [Call.ResolveChannelID 42, Call.ResolveUserID 42, Call.ResolveChatID 42] :=
  ⟨by decide,
    (GetInputPeer_numeric_fallback chatOnlyManager "42" (by decide)).2.2.1
      (Error.upstream "no such channel") (Error.upstream "no such user") ⟨PeerKind.chat, 42⟩
      (by decide) (by decide) (by decide)⟩

/-! ## Mutating operations -/

/-- C9: `MakeDir`, `Move`, `Rename`, `Copy`, `Remove` and `Put` return
`NotImplement` for every argument and every driver state, and leave the
driver, cache and session included, as it was. -/
theorem mutating_operations_not_implemented (d : Telegram) (a b : Obj) (name : String)
    (stream : FileStreamer) :
    Telegram.MakeDir d a name = (Error.NotImplement, d) ∧
    Telegram.Move d a b = (Error.NotImplement, d) ∧
    Telegram.Rename d a name = (Error.NotImplement, d) ∧
    Telegram.Copy d a b = (Error.NotImplement, d) ∧
    Telegram.Remove d a = (Error.NotImplement, d) ∧
    Telegram.Put d a stream = (Error.NotImplement, d) :=
  ⟨rfl, rfl, rfl, rfl, rfl, rfl⟩

/-! ## Keys -/

/-- A split never yields the empty list of segments. -/
theorem splitChars_ne_nil (sep : Char) (cs : List Char) : splitChars sep cs ≠ [] := by
  cases cs with
  | nil => simp [splitChars]
  | cons c cs =>
    unfold splitChars
    split
    · simp
    · split <;> simp

/-- A sequence that splits into one segment is that segment. -/
theorem splitChars_length_one (sep : Char) (cs : List Char)
    (h : (splitChars sep cs).length = 1) : splitChars sep cs = [cs] := by
  induction cs with
  | nil => simp [splitChars]
  | cons c cs ih =>
    unfold splitChars at h ⊢
    by_cases hc : c = sep
    · simp only [hc, if_true, List.length_cons] at h
      have := splitChars_ne_nil sep cs
      cases hs : splitChars sep cs with
      | nil => exact absurd hs this
      | cons a l => rw [hs] at h; simp at h
    · simp only [hc, if_false] at h ⊢
      cases hs : splitChars sep cs with
      | nil => exact absurd hs (splitChars_ne_nil sep cs)
      | cons seg segs =>
        rw [hs] at h ih
        simp only [List.length_cons] at h
        have hsegs : segs = [] := by
          cases segs with
          | nil => rfl
          | cons _ _ => simp at h
        subst hsegs
        have := ih rfl
        simp only [List.cons.injEq, and_true] at this
        simp [this]

/-- A key of one segment is its own first segment. -/
theorem Split_length_one (s : String) (h : (Split s ':').length = 1) :
    Split s ':' = [s] := by
  unfold Split at h ⊢
  rw [List.length_map] at h
  rw [splitChars_length_one ':' s.data h]
  rfl

/-! ## Period folders -/

/-- The four folders of the fixed window, for a peer token. -/
theorem periodFolders_window (peerId : String) (n : Nat) :
    periodFolders peerId (Time.Date 2023 1 1 0 0 0 1) (n + 5) (Time.Date 2022 10 1 0 0 0 0) [] =
      some
        [{ ID := peerId ++ ":" ++ "2022-10", Name := "2022-10", IsFolder := true,
           Modified := Time.Date 2022 10 1 0 0 0 0, Size := 0, Thumbnail := "" },
         { ID := peerId ++ ":" ++ "2022-11", Name := "2022-11", IsFolder := true,
           Modified := Time.Date 2022 11 1 0 0 0 0, Size := 0, Thumbnail := "" },
         { ID := peerId ++ ":" ++ "2022-12", Name := "2022-12", IsFolder := true,
           Modified := Time.Date 2022 12 1 0 0 0 0, Size := 0, Thumbnail := "" },
         { ID := peerId ++ ":" ++ "2023-01", Name := "2023-01", IsFolder := true,
           Modified := Time.Date 2023 1 1 0 0 0 0, Size := 0, Thumbnail := "" }] := by
  have b1 : (Time.Date 2022 10 1 0 0 0 0).Before (Time.Date 2023 1 1 0 0 0 1) = true := by decide
  have b2 : (Time.Date 2022 11 1 0 0 0 0).Before (Time.Date 2023 1 1 0 0 0 1) = true := by decide
  have b3 : (Time.Date 2022 12 1 0 0 0 0).Before (Time.Date 2023 1 1 0 0 0 1) = true := by decide
  have b4 : (Time.Date 2023 1 1 0 0 0 0).Before (Time.Date 2023 1 1 0 0 0 1) = true := by decide
  have b5 : (Time.Date 2023 2 1 0 0 0 0).Before (Time.Date 2023 1 1 0 0 0 1) = false := by decide
  have a1 : (Time.Date 2022 10 1 0 0 0 0).AddDate 0 1 0 = Time.Date 2022 11 1 0 0 0 0 := by decide
  have a2 : (Time.Date 2022 11 1 0 0 0 0).AddDate 0 1 0 = Time.Date 2022 12 1 0 0 0 0 := by decide
  have a3 : (Time.Date 2022 12 1 0 0 0 0).AddDate 0 1 0 = Time.Date 2023 1 1 0 0 0 0 := by decide
  have a4 : (Time.Date 2023 1 1 0 0 0 0).AddDate 0 1 0 = Time.Date 2023 2 1 0 0 0 0 := by decide
  have f1 : (Time.Date 2022 10 1 0 0 0 0).Format = "2022-10" := by decide
  have f2 : (Time.Date 2022 11 1 0 0 0 0).Format = "2022-11" := by decide
  have f3 : (Time.Date 2022 12 1 0 0 0 0).Format = "2022-12" := by decide
  have f4 : (Time.Date 2023 1 1 0 0 0 0).Format = "2023-01" := by decide
  show periodFolders peerId _ (n + 4 + 1) _ [] = _
  rw [periodFolders, if_pos b1, a1, f1]
  show periodFolders peerId _ (n + 3 + 1) _ _ = _
  rw [periodFolders, if_pos b2, a2, f2]
  show periodFolders peerId _ (n + 2 + 1) _ _ = _
  rw [periodFolders, if_pos b3, a3, f3]
  show periodFolders peerId _ (n + 1 + 1) _ _ = _
  rw [periodFolders, if_pos b4, a4, f4]
  rw [periodFolders, b5]
  simp

/-- C8: for a key of one segment whose peer resolves and that has no cache
entry, `List` returns exactly the four month folders 2022-10, 2022-11, 2022-12
and 2023-01, in this order, each named by its token, with ID key, colon, token,
marked as a folder, and dated at the first instant of the month in UTC. -/
theorem List_peer_key_month_folders (up : Upstream) (env : Env) (fuel : Nat)
    (now later : Int) (d : Telegram) (dir : Obj) (args : ListArgs) (peer : Peer)
    (hnonroot : dir.ID ≠ "")
    (hsegments : (Split dir.ID ':').length = 1)
    (hmiss : d.cache.Get now dir.ID = none)
    (hpeer : (GetInputPeer up.manager dir.ID).result = .ok peer)
    (hfuel : 5 ≤ fuel) :
    (Telegram.List up env fuel now later d dir args).result =
      .ok
        [{ ID := dir.ID ++ ":" ++ "2022-10", Name := "2022-10", IsFolder := true,
           Modified := Time.Date 2022 10 1 0 0 0 0, Size := 0, Thumbnail := "" },
         { ID := dir.ID ++ ":" ++ "2022-11", Name := "2022-11", IsFolder := true,
           Modified := Time.Date 2022 11 1 0 0 0 0, Size := 0, Thumbnail := "" },
         { ID := dir.ID ++ ":" ++ "2022-12", Name := "2022-12", IsFolder := true,
           Modified := Time.Date 2022 12 1 0 0 0 0, Size := 0, Thumbnail := "" },
         { ID := dir.ID ++ ":" ++ "2023-01", Name := "2023-01", IsFolder := true,
           Modified := Time.Date 2023 1 1 0 0 0 0, Size := 0, Thumbnail := "" }] := by
  obtain ⟨n, rfl⟩ : ∃ n, fuel = n + 5 := ⟨fuel - 5, by omega⟩
  have hsplit := Split_length_one dir.ID hsegments
  simp only [Telegram.List, if_neg hnonroot, hmiss, hsplit, List.headD_cons, hpeer,
    List.length_singleton, if_true, periodFolders_window]

/-- C8 at a concrete input: the key `100`, a channel, on an empty cache. -/
theorem List_peer_key_month_folders_witness :
    (objWithID "100").ID ≠ "" ∧
    (Split (objWithID "100").ID ':').length = 1 ∧
    freshDriver.cache.Get 0 (objWithID "100").ID = none ∧
    (GetInputPeer demoUpstream.manager (objWithID "100").ID).result = .ok demoPeer ∧
    (Telegram.List demoUpstream demoEnv 5 0 0 freshDriver (objWithID "100") ⟨"/tg"⟩).result =
      .ok
        [{ ID := (objWithID "100").ID ++ ":" ++ "2022-10", Name := "2022-10", IsFolder := true,
           Modified := Time.Date 2022 10 1 0 0 0 0, Size := 0, Thumbnail := "" },
         { ID := (objWithID "100").ID ++ ":" ++ "2022-11", Name := "2022-11", IsFolder := true,
           Modified := Time.Date 2022 11 1 0 0 0 0, Size := 0, Thumbnail := "" },
         { ID := (objWithID "100").ID ++ ":" ++ "2022-12", Name := "2022-12", IsFolder := true,
           Modified := Time.Date 2022 12 1 0 0 0 0, Size := 0, Thumbnail := "" },
         { ID := (objWithID "100").ID ++ ":" ++ "2023-01", Name := "2023-01", IsFolder := true,
           Modified := Time.Date 2023 1 1 0 0 0 0, Size := 0, Thumbnail := "" }] :=
  ⟨by decide, by decide, by decide, by decide,
    List_peer_key_month_folders demoUpstream demoEnv 5 0 0 freshDriver (objWithID "100")
      ⟨"/tg"⟩ demoPeer (by decide) (by decide) (by decide) (by decide) (by decide)⟩

/-! ## Root listing -/

/-- C7: the code puts two spaces into the name.  For the dialogs of the user
Alice, who has no last name, and of the channel News, the root listing on a
cache miss gives two folder nodes with the decimal peer ids 1 and 2; the
second is named `News ChatChannel`, the first `Alice  ChatPrivate`, because
`GetName` returns first name, space, last name also when the last name is
empty. -/
theorem List_root_alice_name_two_spaces :
    freshDriver.cache.Get 0 "root" = none ∧
    GetName "Alice" "" "alice" = "Alice " ∧
    (Telegram.List demoUpstream demoEnv 5 0 0 freshDriver (objWithID "") ⟨"/tg"⟩).result =
      .ok
        [{ ID := "1", Name := "Alice  ChatPrivate", IsFolder := true,
           Modified := Time.Unix 1667260800, Size := 0, Thumbnail := "" },
         { ID := "2", Name := "News ChatChannel", IsFolder := true,
           Modified := Time.Unix 1667260900, Size := 0, Thumbnail := "" }] ∧
    "Alice  ChatPrivate" ≠ "Alice ChatPrivate" := by
  decide

/-- The entity maps are read by the bare id, users first: a dialog with the
channel 2, in whose entities a user has the id 2 as well, is named after the
user and not after the channel. -/
theorem List_root_channel_named_after_user :
    (Telegram.List (withDialogs [clashDialog]) demoEnv 5 0 0 freshDriver (objWithID "")
      ⟨"/tg"⟩).result =
      .ok
        [{ ID := "2", Name := "Bob Stone ChatPrivate", IsFolder := true,
           Modified := Time.Unix 1667260900, Size := 0, Thumbnail := "" }] := by
  decide

/-- A dialog whose last message is missing makes the root listing panic, and
nothing is stored in the cache. -/
theorem List_root_dialog_without_last_panics :
    (Telegram.List (withDialogs [aliceDialog, silentDialog]) demoEnv 5 0 0 freshDriver
      (objWithID "") ⟨"/tg"⟩).result =
      .panic "invalid memory address or nil pointer dereference" ∧
    (Telegram.List (withDialogs [aliceDialog, silentDialog]) demoEnv 5 0 0 freshDriver
      (objWithID "") ⟨"/tg"⟩).state = freshDriver := by
  decide

/-! ## Keys of other depths -/

/-- C2, as stated, fails: for the key `100:2022-11:5:6` of four segments, whose
first segment resolves and which has no cache entry, `List` returns a
successful empty listing. -/
theorem List_four_segments_counterexample :
    (Split (objWithID "100:2022-11:5:6").ID ':').length = 4 ∧
    freshDriver.cache.Get 0 (objWithID "100:2022-11:5:6").ID = none ∧
    (GetInputPeer demoUpstream.manager "100").result = .ok demoPeer ∧
    (Telegram.List demoUpstream demoEnv 5 0 0 freshDriver (objWithID "100:2022-11:5:6")
      ⟨"/tg"⟩).result = .ok [] := by
  decide

/-- C2, amended: for a key of four or more segments that has no cache entry,
`List` fails only when the first segment does not resolve to a peer, with the
error of the resolution; when it resolves, `List` returns a successful empty
listing.  In both cases the driver, and so the cache, stays as it was. -/
theorem List_deep_key_empty (up : Upstream) (env : Env) (fuel : Nat) (now later : Int)
    (d : Telegram) (dir : Obj) (args : ListArgs)
    (hsegments : 4 ≤ (Split dir.ID ':').length)
    (hmiss : d.cache.Get now dir.ID = none) :
    (∀ peer, (GetInputPeer up.manager ((Split dir.ID ':').headD "")).result = .ok peer →
      (Telegram.List up env fuel now later d dir args).result = .ok [] ∧
      (Telegram.List up env fuel now later d dir args).state = d) ∧
    (∀ err, (GetInputPeer up.manager ((Split dir.ID ':').headD "")).result = .error err →
      (Telegram.List up env fuel now later d dir args).result = .err err ∧
      (Telegram.List up env fuel now later d dir args).state = d) := by
  have hnonroot : dir.ID ≠ "" := by
    intro h
    rw [h] at hsegments
    revert hsegments
    decide
  have h1 : (Split dir.ID ':').length ≠ 1 := by omega
  have h2 : (Split dir.ID ':').length ≠ 2 := by omega
  constructor
  · intro peer hpeer
    simp only [Telegram.List, if_neg hnonroot, hmiss, hpeer, if_neg h1, if_neg h2, and_self]
  · intro err herr
    simp only [Telegram.List, if_neg hnonroot, hmiss, herr, and_self]

/-- C2, amended, at a concrete input: the key `100:2022-11:5:6`. -/
theorem List_deep_key_empty_witness :
    4 ≤ (Split (objWithID "100:2022-11:5:6").ID ':').length ∧
    freshDriver.cache.Get 0 (objWithID "100:2022-11:5:6").ID = none ∧
    (Telegram.List demoUpstream demoEnv 5 0 0 freshDriver (objWithID "100:2022-11:5:6")
      ⟨"/tg"⟩).result = .ok [] ∧
    (Telegram.List demoUpstream demoEnv 5 0 0 freshDriver (objWithID "100:2022-11:5:6")
      ⟨"/tg"⟩).state = freshDriver :=
  ⟨by decide, by decide,
    (List_deep_key_empty demoUpstream demoEnv 5 0 0 freshDriver (objWithID "100:2022-11:5:6")
      ⟨"/tg"⟩ (by decide) (by decide)).1 demoPeer (by decide)⟩

/-! ## Thumbnails -/

/-- C5, as stated, fails: with bytes cached under `thumbnail:5`, a thumbnail
request for the key `999:2022-11:5`, whose peer token does not resolve, sends
three resolution requests and returns the error of the resolution. -/
theorem Link_thumb_resolves_first_counterexample :
    Split (objWithID "999:2022-11:5").ID ':' = ["999", "2022-11", "5"] ∧
    thumbDriver.cache.Get 0 ("thumbnail:" ++ "5") = some (.bytes [255, 216, 255]) ∧
    (Telegram.Link demoUpstream 0 thumbDriver (objWithID "999:2022-11:5") ⟨"thumb"⟩).result =
      .err (Error.failedToGetResult 999 (Error.upstream "no such chat")) ∧
    (Telegram.Link demoUpstream 0 thumbDriver (objWithID "999:2022-11:5") ⟨"thumb"⟩).calls =
      [Call.ResolveChannelID 999, Call.ResolveUserID 999, Call.ResolveChatID 999] := by
  decide

/-- C5, amended: for a key of three segments and a cache that holds bytes `b`
under `thumbnail:` followed by the message id, a thumbnail request first
resolves the peer token.  When the resolution fails its error is returned.
When it succeeds the request succeeds with body `b` and the headers
Content-Length (the length of `b`), Content-Type `image/jpeg` and
Content-Disposition `filename="<messageId>.jpg"`; the only requests sent are
those of the resolution, so no message search and no file fetch, and the
driver stays as it was. -/
theorem Link_thumb_cache_hit (up : Upstream) (now : Int) (d : Telegram) (file : Obj)
    (args : LinkArgs) (peerToken period messageId : String) (b : Bytes)
    (htype : args.Type_ = "thumb")
    (hkey : Split file.ID ':' = [peerToken, period, messageId])
    (hhit : d.cache.Get now ("thumbnail:" ++ messageId) = some (.bytes b)) :
    (∀ peer, (GetInputPeer up.manager peerToken).result = .ok peer →
      (Telegram.Link up now d file args).result =
        .ok
          { Header :=
              [("Content-Length", FormatInt b.length),
               ("Content-Type", "image/jpeg"),
               ("Content-Disposition", "filename=\"" ++ messageId ++ ".jpg\"")],
            Data := Body.bytes b } ∧
      (Telegram.Link up now d file args).calls = (GetInputPeer up.manager peerToken).calls ∧
      (Telegram.Link up now d file args).state = d) ∧
    (∀ err, (GetInputPeer up.manager peerToken).result = .error err →
      (Telegram.Link up now d file args).result = .err err ∧
      (Telegram.Link up now d file args).calls = (GetInputPeer up.manager peerToken).calls ∧
      (Telegram.Link up now d file args).state = d) := by
  constructor
  · intro peer hpeer
    simp [Telegram.Link, htype, hkey, hpeer, thumbLink, hhit]
  · intro err herr
    simp [Telegram.Link, htype, hkey, herr]

/-- C5, amended, at a concrete input: the key `100:2022-11:5`, whose peer
resolves, with three bytes cached under `thumbnail:5`. -/
theorem Link_thumb_cache_hit_witness :
    (⟨"thumb"⟩ : LinkArgs).Type_ = "thumb" ∧
    Split (objWithID "100:2022-11:5").ID ':' = ["100", "2022-11", "5"] ∧
    thumbDriver.cache.Get 0 ("thumbnail:" ++ "5") = some (.bytes [255, 216, 255]) ∧
    (Telegram.Link demoUpstream 0 thumbDriver (objWithID "100:2022-11:5") ⟨"thumb"⟩).result =
      .ok
        { Header :=
            [("Content-Length", FormatInt ([255, 216, 255] : Bytes).length),
             ("Content-Type", "image/jpeg"),
             ("Content-Disposition", "filename=\"" ++ "5" ++ ".jpg\"")],
          Data := Body.bytes [255, 216, 255] } ∧
    (Telegram.Link demoUpstream 0 thumbDriver (objWithID "100:2022-11:5") ⟨"thumb"⟩).calls =
      (GetInputPeer demoUpstream.manager "100").calls ∧
    (Telegram.Link demoUpstream 0 thumbDriver (objWithID "100:2022-11:5") ⟨"thumb"⟩).state =
      thumbDriver :=
  ⟨rfl, by decide, by decide,
    (Link_thumb_cache_hit demoUpstream 0 thumbDriver (objWithID "100:2022-11:5") ⟨"thumb"⟩
      "100" "2022-11" "5" [255, 216, 255] rfl (by decide) (by decide)).1 demoPeer
      (by decide)⟩

/-- C10: the code panics.  For the keys `100` and `100:2022-11`, whose peer
resolves, a thumbnail request reads the third segment of a key that has one or
two segments, and the index is out of range. -/
theorem Link_thumb_short_key_panics :
    (GetInputPeer demoUpstream.manager "100").result = .ok demoPeer ∧
    (Split (objWithID "100").ID ':').length = 1 ∧
    (Telegram.Link demoUpstream 0 freshDriver (objWithID "100") ⟨"thumb"⟩).result =
      .panic "index out of range [2] with length 1" ∧
    (Split (objWithID "100:2022-11").ID ':').length = 2 ∧
    (Telegram.Link demoUpstream 0 freshDriver (objWithID "100:2022-11") ⟨"thumb"⟩).result =
      .panic "index out of range [2] with length 2" := by
  decide

/-- Every thumbnail request for a key of fewer than three segments whose peer
resolves ends in the index panic. -/
theorem thumb_request_short_key_always_panics (up : Upstream) (now : Int) (d : Telegram)
    (file : Obj) (args : LinkArgs) (peer : Peer)
    (htype : args.Type_ = "thumb")
    (hshort : (Split file.ID ':').length < 3)
    (hpeer : (GetInputPeer up.manager ((Split file.ID ':').headD "")).result = .ok peer) :
    (Telegram.Link up now d file args).result =
      .panic ("index out of range [2] with length " ++ Nat.repr (Split file.ID ':').length) := by
  have hnone : (Split file.ID ':').get? 2 = none := List.get?_eq_none.mpr (by omega)
  simp only [Telegram.Link, htype, if_true, hpeer, hnone]

/-! ## Content -/

/-- C3: the code serves another message.  The channel 100 has no message with
id 5; the search from offset 6 yields the message 3, the newest with an id of
at most 5; and a content request for the key `100:2022-11:5` succeeds with the
file of the message 3. -/
theorem Link_content_serves_older_message :
    (∀ m ∈ demoHistory, m.ID ≠ 5) ∧
    (demoUpstream.SearchOffset demoPeer 6).items.head? = some oldMessage ∧
    oldMessage.ID = 3 ∧
    (Telegram.Link demoUpstream 0 freshDriver (objWithID "100:2022-11:5") ⟨""⟩).result =
      .ok
        { Header :=
            [("Content-Type", "application/pdf"),
             ("Content-Disposition", "filename=\"old.pdf\"")],
          Data := Body.filePipe (Location.document 30 "") } ∧
    (Telegram.Link demoUpstream 0 freshDriver (objWithID "100:2022-11:5") ⟨""⟩).calls =
      [Call.ResolveChannelID 100, Call.SearchOffset demoPeer 6] := by
  decide

/-! ## Period listing -/

/-- C4: the code keeps the partial listing.  For the key `100:2022-11` the
document search yields the message 3 and then stops with an error; `List`
returns the listing with the one node, without error, and stores it in the
cache under the key. -/
theorem List_period_keeps_incomplete_listing :
    (demoUpstream.SearchDocuments demoPeer 1667260800 1669852800).err =
      some (Error.upstream "connection lost") ∧
    (Telegram.List demoUpstream demoEnv 5 0 0 freshDriver (objWithID "100:2022-11")
      ⟨"/tg"⟩).result =
      .ok
        [{ ID := "100:2022-11:3", Name := "old.pdf", IsFolder := false,
           Modified := Time.Unix 1667300000, Size := 2048,
           Thumbnail := "http://host/p/tg/old.pdf?type=thumb&sign=sig" }] ∧
    (Telegram.List demoUpstream demoEnv 5 0 0 freshDriver (objWithID "100:2022-11")
      ⟨"/tg"⟩).state.cache.Get 1 "100:2022-11" =
      some (.listing
        [{ ID := "100:2022-11:3", Name := "old.pdf", IsFolder := false,
           Modified := Time.Unix 1667300000, Size := 2048,
           Thumbnail := "http://host/p/tg/old.pdf?type=thumb&sign=sig" }]) ∧
    (Telegram.List demoUpstream demoEnv 5 0 0 freshDriver (objWithID "100:2022-11")
      ⟨"/tg"⟩).calls =
      [Call.ResolveChannelID 100, Call.SearchDocuments demoPeer 1667260800 1669852800] := by
  decide

/-- The error that stopped the document search has no effect on `List`: with
the error removed from the iterator, the call ends in the same way. -/
theorem List_ignores_iterator_error (up : Upstream) (env : Env) (fuel : Nat)
    (now later : Int) (d : Telegram) (dir : Obj) (args : ListArgs) :
    (Telegram.List
      { up with SearchDocuments := fun p a b => ⟨(up.SearchDocuments p a b).items, none⟩ }
      env fuel now later d dir args).result =
      (Telegram.List up env fuel now later d dir args).result ∧
    (Telegram.List
      { up with SearchDocuments := fun p a b => ⟨(up.SearchDocuments p a b).items, none⟩ }
      env fuel now later d dir args).state =
      (Telegram.List up env fuel now later d dir args).state :=
  ⟨rfl, rfl⟩

/-- A content request takes the first message of the search whatever its id
is: when that message carries a file, the request succeeds with this file. -/
theorem Link_content_takes_first_result (up : Upstream) (now : Int) (d : Telegram)
    (file : Obj) (args : LinkArgs) (peer : Peer) (message : Elem) (rest : Slice Elem)
    (f : File)
    (htype : args.Type_ ≠ "thumb")
    (hsegments : (Split file.ID ':').length = 3)
    (hpeer : (GetInputPeer up.manager ((Split file.ID ':').headD "")).result = .ok peer)
    (hfirst : (up.SearchOffset peer
      (wrap64 ((Atoi ((Split file.ID ':').getD 2 "")).val + 1))).items = message :: rest)
    (hfile : message.File = some f) :
    (Telegram.Link up now d file args).result =
      .ok
        { Header :=
            [("Content-Type", f.MIMEType),
             ("Content-Disposition", "filename=\"" ++ f.Name ++ "\"")],
          Data := Body.filePipe f.Location } := by
  simp only [Telegram.Link, if_neg htype, hsegments, if_true, hpeer, hfirst, hfile]

/-! ## Repeated listing -/

/-- An entry stored with the default time to live is found until that time
has passed. -/
theorem Cache_Get_Set (c : Cache) (later now2 : Int) (k : String) (x : CacheValue)
    (hlive : now2 ≤ later + defaultExpiration) :
    (c.Set later k x defaultExpiration).Get now2 k = some x := by
  have hpos : defaultExpiration > 0 := by decide
  have hnot : ¬ (later + defaultExpiration > 0 ∧ now2 > later + defaultExpiration) := by
    intro h
    omega
  simp only [Cache.Get, Cache.Set, List.lookup_cons, beq_self_eq_true, if_pos hpos, if_neg hnot]

/-- A listing found in the cache is returned as it is, without any request and
without a change of the driver. -/
theorem List_hit (up : Upstream) (env : Env) (fuel : Nat) (now later : Int) (d : Telegram)
    (dir : Obj) (args : ListArgs) (files : Slice Obj)
    (hhit : d.cache.Get now (if dir.ID = "" then "root" else dir.ID) = some (.listing files)) :
    (Telegram.List up env fuel now later d dir args).result = .ok files ∧
    (Telegram.List up env fuel now later d dir args).calls = [] ∧
    (Telegram.List up env fuel now later d dir args).state = d := by
  by_cases hroot : dir.ID = ""
  · rw [if_pos hroot] at hhit
    simp only [Telegram.List, if_pos hroot, hhit, cachedListing, and_self]
  · rw [if_neg hroot] at hhit
    simp only [Telegram.List, if_neg hroot, hhit, cachedListing, and_self]

/-- A successful listing of depth 0, 1 or 2 on a cache miss stores exactly the
returned listing under the key, with the default time to live. -/
theorem List_miss_stores (up : Upstream) (env : Env) (fuel : Nat) (now later : Int)
    (d : Telegram) (dir : Obj) (args : ListArgs) (files : Slice Obj)
    (hdepth : dir.ID = "" ∨ (Split dir.ID ':').length = 1 ∨ (Split dir.ID ':').length = 2)
    (hmiss : d.cache.Get now (if dir.ID = "" then "root" else dir.ID) = none)
    (hok : (Telegram.List up env fuel now later d dir args).result = .ok files) :
    (Telegram.List up env fuel now later d dir args).state.cache =
      d.cache.Set later (if dir.ID = "" then "root" else dir.ID) (.listing files)
        defaultExpiration := by
  by_cases hroot : dir.ID = ""
  · rw [if_pos hroot] at hmiss ⊢
    simp only [Telegram.List, if_pos hroot, hmiss] at hok ⊢
    cases hd : up.GetDialogs with
    | error e => simp only [hd, reduceCtorEq] at hok
    | ok dialogs =>
      simp only [hd] at hok ⊢
      cases hf : dialogFolders dialogs [] with
      | ok fs =>
        simp only [hf, Outcome.ok.injEq] at hok ⊢
        rw [hok]
      | err e => simp only [hf, reduceCtorEq] at hok
      | panic msg => simp only [hf, reduceCtorEq] at hok
      | outOfFuel => simp only [hf, reduceCtorEq] at hok
  · rw [if_neg hroot] at hmiss ⊢
    simp only [Telegram.List, if_neg hroot, hmiss] at hok ⊢
    cases hp : (GetInputPeer up.manager ((Split dir.ID ':').headD "")).result with
    | error e => simp only [hp, reduceCtorEq] at hok
    | ok peer =>
      simp only [hp] at hok ⊢
      by_cases h1 : (Split dir.ID ':').length = 1
      · simp only [if_pos h1] at hok ⊢
        cases hf : periodFolders ((Split dir.ID ':').headD "") (Time.Date 2023 1 1 0 0 0 1)
            fuel (Time.Date 2022 10 1 0 0 0 0) [] with
        | none => simp only [hf, reduceCtorEq] at hok
        | some fs =>
          simp only [hf, Outcome.ok.injEq] at hok ⊢
          rw [hok]
      · have h2 : (Split dir.ID ':').length = 2 := by
          rcases hdepth with h | h | h
          · exact absurd h hroot
          · exact absurd h h1
          · exact h
        simp only [if_neg h1, if_pos h2] at hok ⊢
        cases ht : Time.Parse ((Split dir.ID ':').getD 1 "") with
        | error e => simp only [ht, reduceCtorEq] at hok
        | ok t =>
          simp only [ht] at hok ⊢
          cases hm : messageFiles env args ((Split dir.ID ':').headD "")
              ((Split dir.ID ':').getD 1 "")
              (up.SearchDocuments peer t.toUnix (t.AddDate 0 1 0).toUnix).items [] with
          | ok fs =>
            simp only [hm, Outcome.ok.injEq] at hok ⊢
            rw [hok]
          | err e => simp only [hm, reduceCtorEq] at hok
          | panic msg => simp only [hm, reduceCtorEq] at hok
          | outOfFuel => simp only [hm, reduceCtorEq] at hok

/-- C6: for a key of depth 0, 1 or 2 that has no cache entry, if `List`
succeeds, then a second `List` for the same key on the resulting driver, at a
time at which the entry has not expired, returns the same node sequence, sends
no request to the Telegram client, and leaves the driver as it is; this holds
whatever the client would answer the second time. -/
theorem List_repeat_within_ttl (up up2 : Upstream) (env env2 : Env) (fuel fuel2 : Nat)
    (now later now2 later2 : Int) (d : Telegram) (dir : Obj) (args args2 : ListArgs)
    (files : Slice Obj)
    (hdepth : dir.ID = "" ∨ (Split dir.ID ':').length = 1 ∨ (Split dir.ID ':').length = 2)
    (hmiss : d.cache.Get now (if dir.ID = "" then "root" else dir.ID) = none)
    (hok : (Telegram.List up env fuel now later d dir args).result = .ok files)
    (hlive : now2 ≤ later + defaultExpiration) :
    (Telegram.List up2 env2 fuel2 now2 later2
      (Telegram.List up env fuel now later d dir args).state dir args2).result = .ok files ∧
    (Telegram.List up2 env2 fuel2 now2 later2
      (Telegram.List up env fuel now later d dir args).state dir args2).calls = [] ∧
    (Telegram.List up2 env2 fuel2 now2 later2
      (Telegram.List up env fuel now later d dir args).state dir args2).state =
      (Telegram.List up env fuel now later d dir args).state := by
  apply List_hit
  rw [List_miss_stores up env fuel now later d dir args files hdepth hmiss hok]
  exact Cache_Get_Set d.cache later now2 _ _ hlive

/-- C6 at a concrete input: the period listing `100:2022-11`, repeated four
minutes after the first call against a client that would answer with errors. -/
theorem List_repeat_within_ttl_witness :
    ((objWithID "100:2022-11").ID = "" ∨
      (Split (objWithID "100:2022-11").ID ':').length = 1 ∨
      (Split (objWithID "100:2022-11").ID ':').length = 2) ∧
    freshDriver.cache.Get 0
      (if (objWithID "100:2022-11").ID = "" then "root" else (objWithID "100:2022-11").ID) =
      none ∧
    (240000000000 : Int) ≤ 1000 + defaultExpiration ∧
    (Telegram.List chatOnlyUpstream demoEnv 0 240000000000 240000000000
      (Telegram.List demoUpstream demoEnv 5 0 1000 freshDriver (objWithID "100:2022-11")
        ⟨"/tg"⟩).state
      (objWithID "100:2022-11") ⟨"/other"⟩).result =
      .ok
        [{ ID := "100:2022-11:3", Name := "old.pdf", IsFolder := false,
           Modified := Time.Unix 1667300000, Size := 2048,
           Thumbnail := "http://host/p/tg/old.pdf?type=thumb&sign=sig" }] ∧
    (Telegram.List chatOnlyUpstream demoEnv 0 240000000000 240000000000
      (Telegram.List demoUpstream demoEnv 5 0 1000 freshDriver (objWithID "100:2022-11")
        ⟨"/tg"⟩).state
      (objWithID "100:2022-11") ⟨"/other"⟩).calls = [] ∧
    (Telegram.List chatOnlyUpstream demoEnv 0 240000000000 240000000000
      (Telegram.List demoUpstream demoEnv 5 0 1000 freshDriver (objWithID "100:2022-11")
        ⟨"/tg"⟩).state
      (objWithID "100:2022-11") ⟨"/other"⟩).state =
      (Telegram.List demoUpstream demoEnv 5 0 1000 freshDriver (objWithID "100:2022-11")
        ⟨"/tg"⟩).state :=
  ⟨by decide, by decide, by decide,
    List_repeat_within_ttl demoUpstream chatOnlyUpstream demoEnv demoEnv 5 0 0 1000
      240000000000 240000000000 freshDriver (objWithID "100:2022-11") ⟨"/tg"⟩ ⟨"/other"⟩ _
      (by decide) (by decide) (by decide) (by decide)⟩
